/-
Verification of the Vorb `Widget` layout core (src/include/ui/Widget.h).

The header file supplies the data model (enums, `DockingOptions`,
`Transition`/`Transition2`, the `Widget` member list with its in-class
initializers) and a number of inline member functions (the raw setters,
`setAnchor`, `setPositionType`, `updateMinSize`, `updateMaxSize`).  The
out-of-line member bodies (`update`, `addWidget`, `dispose`,
`updatePosition`, `updateDimensions`, `processRawValue`,
`applyMinMaxSizesToDimensions`, docking resolution and the mouse handlers
inherited from `IWidgetContainer`) are not part of the source tree; where a
definition below embeds one of those, its doc comment says so explicitly
and the definition follows the specification's description of it.

Scalars (`f32`) are embedded as rationals, times (`ui16`) as naturals.
-/
import Mathlib

namespace Vorb

/-- Units a raw length can carry.  Modelled from the spec: the `UnitType`
enum lives in a header outside src/; the spec names `Pixel` and `Percent`. -/
inductive UnitType where
  | pixel
  | percent
deriving DecidableEq, Repr

/-- A unit pair for the two axes of a `Length2` (mirrors `units.x`/`units.y`). -/
structure UnitType2 where
  x : UnitType
  y : UnitType
deriving DecidableEq, Repr

/-- A scalar with a unit tag (`Length` of the source). -/
structure Length where
  value : ℚ
  unit : UnitType
deriving DecidableEq, Repr

/-- A two-axis length, each axis with its own unit (`Length2` of the source). -/
structure Length2 where
  x : ℚ
  y : ℚ
  units : UnitType2
deriving DecidableEq, Repr

/-- Widget alignments (`WidgetAlign`, Widget.h lines 40-50). -/
inductive WidgetAlign where
  | LEFT
  | TOP_LEFT
  | TOP
  | TOP_RIGHT
  | RIGHT
  | BOTTOM_RIGHT
  | BOTTOM
  | BOTTOM_LEFT
  | CENTER
deriving DecidableEq, Repr

/-- Position types (`PositionType`, Widget.h lines 53-58). -/
inductive PositionType where
  | STATIC
  | ABSOLUTE
  | FIXED
  | RELATIVE
deriving DecidableEq, Repr

/-- Docking styles (`DockingStyle`, Widget.h lines 61-68). -/
inductive DockingStyle where
  | NONE
  | LEFT
  | TOP
  | RIGHT
  | BOTTOM
  | FILL
deriving DecidableEq, Repr

/-- Docking options (`DockingOptions`, Widget.h lines 71-74). -/
structure DockingOptions where
  style : DockingStyle
  size : Length
deriving DecidableEq, Repr

/-- Anchor flags.  Modelled from the spec: `AnchorStyle` is declared in a
header outside src/; the spec describes independent left/right/top/bottom
boolean flags. -/
structure AnchorStyle where
  left : Bool
  right : Bool
  top : Bool
  bottom : Bool
deriving DecidableEq, Repr

/-- Scalar transition (`Transition`, Widget.h lines 77-82). -/
structure Transition where
  rawInitialLength : Length
  rawTargetLength : Length
  initialLength : ℚ
  targetLength : ℚ
  currentTime : ℕ
  finalTime : ℕ
  tweeningFunc : ℚ → ℚ → ℕ → ℕ → ℚ

/-- Two-axis transition (`Transition2`, Widget.h lines 83-88). -/
structure Transition2 where
  rawInitialLength : Length2
  rawTargetLength : Length2
  initialLength : ℚ × ℚ
  targetLength : ℚ × ℚ
  currentTime : ℕ
  finalTime : ℕ
  tweeningFunc : ℚ → ℚ → ℕ → ℕ → ℚ

/-- `FLT_MAX`, the default processed maximum size (Widget.h line 265),
as an exact rational: `2^128 - 2^104`. -/
def fltMax : ℚ := 340282346638528859811704183484516925440

/-- The scalar fields of a widget (the member list of `Widget`,
Widget.h lines 245-266, together with the geometry, interaction and
identity state inherited from `IWidgetContainer`, whose header is outside
src/ and is modelled from the spec: processed `position`/`dimensions`,
`parent` back-reference, `isEnabled`/`isMouseIn`/`isClicking`).
Pointer identity of widgets is embedded as a numeric id `wid`; the
non-owning `font` and `renderer` pointers as `Option Unit` handles. -/
structure WidgetCore where
  wid : ℕ
  parent : Option ℕ
  align : WidgetAlign
  anchor : AnchorStyle
  dockingOptions : DockingOptions
  targetDockingSize : Transition
  processedDockingSize : ℚ
  font : Option Unit
  renderer : Option Unit
  zIndex : ℕ
  positionType : PositionType
  rawPosition : Length2
  targetRawPosition : Transition2
  relativePosition : ℚ × ℚ
  position : ℚ × ℚ
  rawDimensions : Length2
  targetRawDimensions : Transition2
  dimensions : ℚ × ℚ
  rawMinSize : Length2
  targetRawMinSize : Transition2
  minSize : ℚ × ℚ
  rawMaxSize : Length2
  targetRawMaxSize : Transition2
  maxSize : ℚ × ℚ
  needsDrawableReload : Bool
  isEnabled : Bool
  isMouseIn : Bool
  isClicking : Bool

/-- A widget: its scalar state plus its ordered, owned children. -/
inductive Widget where
  | mk (core : WidgetCore) (children : List Widget)

/-- The scalar state of a widget. -/
def Widget.core : Widget → WidgetCore
  | .mk c _ => c

/-- The ordered child list of a widget. -/
def Widget.children : Widget → List Widget
  | .mk _ cs => cs

/-- The geometric context a widget resolves against: the parent's processed
position and dimensions (for a root widget, the implicit viewport, `0` if
undefined, per the spec's root contract). -/
structure Ctx where
  pos : ℚ × ℚ
  dims : ℚ × ℚ
deriving DecidableEq, Repr

/-- Modelled from the spec: the scalar unit resolution underlying
`processRawValue` (Widget.h line 235; body not in src/).  `Pixel` passes
through unchanged; `Percent` multiplies the parent's processed extent on
that axis by `value/100`. -/
def processRawValueAxis (basis : ℚ) (v : ℚ) : UnitType → ℚ
  | .pixel => v
  | .percent => basis * v / 100

/-- Modelled from the spec: `processRawValue` (Widget.h line 235; body not
in src/), resolving a two-axis raw value carrying a single unit against
the parent's processed dimensions. -/
def processRawValue (parentDims : ℚ × ℚ) (rawValue : ℚ × ℚ) (unit : UnitType) : ℚ × ℚ :=
  (processRawValueAxis parentDims.1 rawValue.1 unit,
   processRawValueAxis parentDims.2 rawValue.2 unit)

/-- Modelled from the spec: `processRawValues` (Widget.h line 234; body not
in src/), resolving a `Length2` per axis with each axis's own unit. -/
def processRawValues (parentDims : ℚ × ℚ) (l : Length2) : ℚ × ℚ :=
  (processRawValueAxis parentDims.1 l.x l.units.x,
   processRawValueAxis parentDims.2 l.y l.units.y)

/-- Modelled from the spec: `applyMinMaxSizesToDimensions` (Widget.h line
241; body not in src/).  Clamps dimensions into `[minSize, maxSize]`
component-wise, min taking precedence over max when they conflict
(the value is first capped at max, then raised to min). -/
def applyMinMaxSizesToDimensions (mn mx d : ℚ × ℚ) : ℚ × ℚ :=
  (max mn.1 (min d.1 mx.1), max mn.2 (min d.2 mx.2))

/-- Modelled from the spec: `getWidgetAlignOffset` (Widget.h line 220; body
not in src/).  The 9-way alignment offset: `CENTER` shifts by half the
difference between parent and own processed dimensions on both axes;
edge and corner values shift only the relevant axis or axes. -/
def getWidgetAlignOffset (parentDims dims : ℚ × ℚ) : WidgetAlign → ℚ × ℚ
  | .TOP_LEFT => (0, 0)
  | .TOP => ((parentDims.1 - dims.1) / 2, 0)
  | .TOP_RIGHT => (parentDims.1 - dims.1, 0)
  | .LEFT => (0, (parentDims.2 - dims.2) / 2)
  | .CENTER => ((parentDims.1 - dims.1) / 2, (parentDims.2 - dims.2) / 2)
  | .RIGHT => (parentDims.1 - dims.1, (parentDims.2 - dims.2) / 2)
  | .BOTTOM_LEFT => (0, parentDims.2 - dims.2)
  | .BOTTOM => ((parentDims.1 - dims.1) / 2, parentDims.2 - dims.2)
  | .BOTTOM_RIGHT => (parentDims.1 - dims.1, parentDims.2 - dims.2)

/-- Modelled from the spec: the position resolution performed by
`updatePosition` (Widget.h line 223; body not in src/).  `Static`/`Relative`
positions are relative to the parent content origin, `Absolute`/`Fixed` to
the viewport; the raw position is unit-resolved against the parent's
dimensions and the alignment offset is added after. -/
def resolvePosition (ctx : Ctx) (c : WidgetCore) (dims : ℚ × ℚ) : ℚ × ℚ :=
  let base : ℚ × ℚ :=
    match c.positionType with
    | .STATIC => ctx.pos
    | .RELATIVE => ctx.pos
    | .ABSOLUTE => (0, 0)
    | .FIXED => (0, 0)
  let raw := processRawValues ctx.dims c.rawPosition
  let off := getWidgetAlignOffset ctx.dims dims c.align
  (base.1 + raw.1 + off.1, base.2 + raw.2 + off.2)

/-- Modelled from the spec: the resolution step of `updateDockingSize`
(Widget.h line 231; body not in src/): the raw docking size is processed
against the parent extent of the docked axis. -/
def processDockingSize (ctx : Ctx) (o : DockingOptions) : ℚ :=
  match o.style with
  | .LEFT => processRawValueAxis ctx.dims.1 o.size.value o.size.unit
  | .RIGHT => processRawValueAxis ctx.dims.1 o.size.value o.size.unit
  | _ => processRawValueAxis ctx.dims.2 o.size.value o.size.unit

/-- Modelled from the spec: the per-node work of the
`updateDimensions` / `updatePosition` pair (Widget.h lines 223-231; bodies
not in src/): the processed dimensions are recomputed from the raw
dimensions and clamped by the cached processed min/max sizes, then the
processed position is re-resolved, and the docking size is reprocessed. -/
def recomputeCore (ctx : Ctx) (c : WidgetCore) : WidgetCore :=
  let d := applyMinMaxSizesToDimensions c.minSize c.maxSize
            (processRawValues ctx.dims c.rawDimensions)
  { c with
    dimensions := d
    position := resolvePosition ctx c d
    processedDockingSize := processDockingSize ctx c.dockingOptions }

/-- The geometric context a widget provides to its children: its own
processed position and dimensions. -/
def childCtx (c : WidgetCore) : Ctx :=
  ⟨c.position, c.dimensions⟩

mutual

/-- Modelled from the spec: the recomputation cascade behind
`updateSpatialState` / `updatePositionState` / `updateDimensionState`
(declared in `IWidgetContainer`, outside src/): the node's processed
dimensions and position are recomputed, then the recomputation propagates
to every child against the node's fresh geometry, depth-first. -/
def Widget.updateSpatialState (ctx : Ctx) : Widget → Widget
  | .mk c cs =>
    let c' := recomputeCore ctx c
    .mk c' (updateSpatialStateList (childCtx c') cs)

/-- The child half of the cascade: each child re-resolves in order. -/
def updateSpatialStateList (ctx : Ctx) : List Widget → List Widget
  | [] => []
  | w :: ws => w.updateSpatialState ctx :: updateSpatialStateList ctx ws

end

/-- `setRawPosition` (Widget.h line 193): stores the raw position and runs
the position cascade. -/
def Widget.setRawPosition (ctx : Ctx) (rawPosition : Length2) (w : Widget) : Widget :=
  Widget.updateSpatialState ctx (.mk { w.core with rawPosition := rawPosition } w.children)

/-- `setRawDimensions` (Widget.h line 199): stores the raw dimensions and
runs the dimension cascade. -/
def Widget.setRawDimensions (ctx : Ctx) (rawDimensions : Length2) (w : Widget) : Widget :=
  Widget.updateSpatialState ctx (.mk { w.core with rawDimensions := rawDimensions } w.children)

/-- `setRawMinSize` (Widget.h line 210) followed by the inline
`updateMinSize` (line 229): the processed min size is recomputed from the
raw one, then the dimension cascade runs. -/
def Widget.setRawMinSize (ctx : Ctx) (minSize : Length2) (w : Widget) : Widget :=
  Widget.updateSpatialState ctx
    (.mk { w.core with
            rawMinSize := minSize
            minSize := processRawValues ctx.dims minSize } w.children)

/-- `setRawMaxSize` (Widget.h line 204) followed by the inline
`updateMaxSize` (line 227): the processed max size is recomputed from the
raw one, then the dimension cascade runs. -/
def Widget.setRawMaxSize (ctx : Ctx) (maxSize : Length2) (w : Widget) : Widget :=
  Widget.updateSpatialState ctx
    (.mk { w.core with
            rawMaxSize := maxSize
            maxSize := processRawValues ctx.dims maxSize } w.children)

/-- Modelled from the spec: `setDimensions` (Widget.h line 198; body not in
src/) stores the dimensions as a pixel-unit raw value and cascades. -/
def Widget.setDimensions (ctx : Ctx) (dims : ℚ × ℚ) (w : Widget) : Widget :=
  Widget.updateSpatialState ctx
    (.mk { w.core with
            rawDimensions := ⟨dims.1, dims.2, ⟨.pixel, .pixel⟩⟩ } w.children)

/-- Modelled from the spec: `setDockingOptions` (Widget.h line 185; body
not in src/) stores the options, reprocesses the docking size and
cascades. -/
def Widget.setDockingOptions (ctx : Ctx) (options : DockingOptions) (w : Widget) : Widget :=
  Widget.updateSpatialState ctx (.mk { w.core with dockingOptions := options } w.children)

/-- Modelled from the spec: `setDockingStyle` (Widget.h line 188; body not
in src/) stores the style and cascades. -/
def Widget.setDockingStyle (ctx : Ctx) (style : DockingStyle) (w : Widget) : Widget :=
  Widget.updateSpatialState ctx
    (.mk { w.core with
            dockingOptions := { w.core.dockingOptions with style := style } } w.children)

/-- `setAnchor` (Widget.h line 184): the inline body is exactly
`m_anchor = anchor;` — the anchor field is assigned and nothing else runs. -/
def Widget.setAnchor (anchor : AnchorStyle) (w : Widget) : Widget :=
  .mk { w.core with anchor := anchor } w.children

/-- `setPositionType` (Widget.h line 191): the inline body assigns the
position type and calls `updateSpatialState()`. -/
def Widget.setPositionType (ctx : Ctx) (positionType : PositionType) (w : Widget) : Widget :=
  Widget.updateSpatialState ctx (.mk { w.core with positionType := positionType } w.children)

/-- Modelled from the spec: one `update(dt)` step of a `Transition2`
(Widget.h lines 151-155; body not in src/).  While the transition is live,
`currentTime` advances by `dt` capped at `finalTime`; if the cap is hit the
raw value becomes the target exactly, otherwise the tweening function
produces the tick's raw value.  Once `currentTime` has reached `finalTime`
the transition is inert: the raw value it drives is left untouched. -/
def stepTransition2 (raw : Length2) (t : Transition2) (dt : ℕ) : Length2 × Transition2 :=
  if t.finalTime ≤ t.currentTime then
    (raw, t)
  else
    let nt := min (t.currentTime + dt) t.finalTime
    if t.finalTime ≤ nt then
      (t.rawTargetLength, { t with currentTime := nt })
    else
      (⟨t.tweeningFunc t.rawInitialLength.x t.rawTargetLength.x nt t.finalTime,
        t.tweeningFunc t.rawInitialLength.y t.rawTargetLength.y nt t.finalTime,
        t.rawTargetLength.units⟩,
       { t with currentTime := nt })

/-- Modelled from the spec: the transition-advancing half of `update(dt)`
applied to one widget's scalar state: each geometry transition steps, and
the processed min/max sizes are re-derived from the (possibly changed) raw
ones. -/
def stepCore (ctx : Ctx) (dt : ℕ) (c : WidgetCore) : WidgetCore :=
  let sp := stepTransition2 c.rawPosition c.targetRawPosition dt
  let sd := stepTransition2 c.rawDimensions c.targetRawDimensions dt
  let smn := stepTransition2 c.rawMinSize c.targetRawMinSize dt
  let smx := stepTransition2 c.rawMaxSize c.targetRawMaxSize dt
  { c with
    rawPosition := sp.1
    targetRawPosition := sp.2
    rawDimensions := sd.1
    targetRawDimensions := sd.2
    rawMinSize := smn.1
    targetRawMinSize := smn.2
    minSize := processRawValues ctx.dims smn.1
    rawMaxSize := smx.1
    targetRawMaxSize := smx.2
    maxSize := processRawValues ctx.dims smx.1 }

mutual

/-- Modelled from the spec: `update(dt)` (Widget.h line 155; body not in
src/): advances any active transitions, re-derives the node's processed
geometry, and recurses into the children against the fresh geometry. -/
def Widget.update (ctx : Ctx) (dt : ℕ) : Widget → Widget
  | .mk c cs =>
    let c' := recomputeCore ctx (stepCore ctx dt c)
    .mk c' (updateList (childCtx c') dt cs)

/-- The child half of the per-frame update. -/
def updateList (ctx : Ctx) (dt : ℕ) : List Widget → List Widget
  | [] => []
  | w :: ws => w.update ctx dt :: updateList ctx dt ws

end

/-- `getDimensions()`: the processed dimensions (inherited getter; the
processed pair is the cached member the inline clamp writes to). -/
def Widget.getDimensions (w : Widget) : ℚ × ℚ :=
  w.core.dimensions

/-- `getMinSize()` (Widget.h line 174): the processed minimum size. -/
def Widget.getMinSize (w : Widget) : ℚ × ℚ :=
  w.core.minSize

/-- `getMaxSize()` (Widget.h line 177): the processed maximum size. -/
def Widget.getMaxSize (w : Widget) : ℚ × ℚ :=
  w.core.maxSize

/-- `getRawPosition()` (Widget.h line 167). -/
def Widget.getRawPosition (w : Widget) : Length2 :=
  w.core.rawPosition

/-- `getPosition()`: the processed position (inherited getter). -/
def Widget.getPosition (w : Widget) : ℚ × ℚ :=
  w.core.position

/-- Whether one node's cached processed geometry agrees with what the
cascade derives from its raw state in context `ctx`: dimensions are the
min/max-clamped resolution of the raw dimensions, the position is the
anchor-context resolution of the raw position, and the processed docking
size matches the raw docking options. -/
def nodeResolved (ctx : Ctx) (c : WidgetCore) : Bool :=
  decide (c.dimensions =
      applyMinMaxSizesToDimensions c.minSize c.maxSize
        (processRawValues ctx.dims c.rawDimensions)) &&
  decide (c.position = resolvePosition ctx c c.dimensions) &&
  decide (c.processedDockingSize = processDockingSize ctx c.dockingOptions)

/-- `nodeResolved` strengthened with the processed min/max sizes agreeing
with their raw counterparts (as `updateMinSize`/`updateMaxSize` leave them). -/
def fullyResolved (ctx : Ctx) (c : WidgetCore) : Bool :=
  decide (c.minSize = processRawValues ctx.dims c.rawMinSize) &&
  decide (c.maxSize = processRawValues ctx.dims c.rawMaxSize) &&
  nodeResolved ctx c

mutual

/-- Every node of the subtree is resolved against the geometry chain from
`ctx` down: the node itself, and each child against the node's processed
geometry. -/
def subtreeResolved (ctx : Ctx) : Widget → Bool
  | .mk c cs => nodeResolved ctx c && subtreeResolvedList (childCtx c) cs

/-- The child half of `subtreeResolved`. -/
def subtreeResolvedList (ctx : Ctx) : List Widget → Bool
  | [] => true
  | w :: ws => subtreeResolved ctx w && subtreeResolvedList ctx ws

end

/-- Modelled from the spec: `addWidget` (Widget.h lines 131-136; body not
in src/).  Fails — returning `false` and leaving the receiver untouched —
when the argument is null or already has a different parent; on success the
child is re-parented, appended in insertion order, re-resolved against this
widget's geometry, and the drawable order is marked dirty.  No exception
channel exists: the function is total and the boolean is the sole failure
signal. -/
def Widget.addWidget (w : Widget) (child : Option Widget) : Bool × Widget :=
  match child with
  | none => (false, w)
  | some ch =>
    match ch.core.parent with
    | some pid =>
      if pid = w.core.wid then
        (true,
         .mk { w.core with needsDrawableReload := true }
           (w.children ++
            [Widget.updateSpatialState (childCtx w.core)
              (.mk { ch.core with parent := some w.core.wid } ch.children)]))
      else
        (false, w)
    | none =>
      (true,
       .mk { w.core with needsDrawableReload := true }
         (w.children ++
          [Widget.updateSpatialState (childCtx w.core)
            (.mk { ch.core with parent := some w.core.wid } ch.children)]))

/-- Modelled from the spec: `dispose()` (Widget.h line 129; body not in
src/).  Detaches the widget from its parent, removes its drawables (the
renderer link is cleared), disposes and releases every child so the child
collection ends empty, and clears the non-owning references.  The function
is total — no error is ever raised. -/
def Widget.dispose (w : Widget) : Widget :=
  .mk { w.core with
          parent := none
          renderer := none
          font := none } []

/-- A transition value with zeroed lengths and times and an inert tweening
function, standing for a value-initialized `Transition2`. -/
def defaultTransition2 : Transition2 :=
  { rawInitialLength := ⟨0, 0, ⟨.pixel, .pixel⟩⟩
    rawTargetLength := ⟨0, 0, ⟨.pixel, .pixel⟩⟩
    initialLength := (0, 0)
    targetLength := (0, 0)
    currentTime := 0
    finalTime := 0
    tweeningFunc := fun a _ _ _ => a }

/-- A scalar transition with zeroed lengths and times. -/
def defaultTransition : Transition :=
  { rawInitialLength := ⟨0, .pixel⟩
    rawTargetLength := ⟨0, .pixel⟩
    initialLength := 0
    targetLength := 0
    currentTime := 0
    finalTime := 0
    tweeningFunc := fun a _ _ _ => a }

/-- The scalar state of a default-constructed `Widget`, from the in-class
member initializers (Widget.h lines 245-266): `TOP_LEFT` alignment,
`STATIC` positioning, zero processed minimum size, `FLT_MAX` processed
maximum size, zero relative position, a clear reload flag and null font and
renderer pointers.  Fields without an initializer in the header
(`zIndex`, `dockingOptions`, `processedDockingSize`) are value-initialized
here. -/
def defaultCore : WidgetCore :=
  { wid := 0
    parent := none
    align := .TOP_LEFT
    anchor := ⟨false, false, false, false⟩
    dockingOptions := ⟨.NONE, ⟨0, .pixel⟩⟩
    targetDockingSize := defaultTransition
    processedDockingSize := 0
    font := none
    renderer := none
    zIndex := 0
    positionType := .STATIC
    rawPosition := ⟨0, 0, ⟨.pixel, .pixel⟩⟩
    targetRawPosition := defaultTransition2
    relativePosition := (0, 0)
    position := (0, 0)
    rawDimensions := ⟨0, 0, ⟨.pixel, .pixel⟩⟩
    targetRawDimensions := defaultTransition2
    dimensions := (0, 0)
    rawMinSize := ⟨0, 0, ⟨.pixel, .pixel⟩⟩
    targetRawMinSize := defaultTransition2
    minSize := (0, 0)
    rawMaxSize := ⟨0, 0, ⟨.pixel, .pixel⟩⟩
    targetRawMaxSize := defaultTransition2
    maxSize := (fltMax, fltMax)
    needsDrawableReload := false
    isEnabled := false
    isMouseIn := false
    isClicking := false }

/-- A default-constructed `Widget`: default scalar state, no children. -/
def defaultWidget : Widget :=
  .mk defaultCore []

/-- An axis-aligned point-in-rectangle test with inclusive-exclusive
edges, on an explicit origin and extent. -/
def pointInRect (pos dims : ℚ × ℚ) (p : ℚ × ℚ) : Bool :=
  decide (pos.1 ≤ p.1) && decide (p.1 < pos.1 + dims.1) &&
  decide (pos.2 ≤ p.2) && decide (p.2 < pos.2 + dims.2)

/-- Modelled from the spec: `isInBounds` (declared in `IWidgetContainer`,
outside src/): the point-in-rectangle test against the widget's current
processed position and dimensions. -/
def isInBounds (c : WidgetCore) (p : ℚ × ℚ) : Bool :=
  pointInRect c.position c.dimensions p

/-- The notification events a widget can fire from its mouse handlers. -/
inductive MouseEvt where
  | click
  | down
  | up
  | enter
  | leave
  | move
deriving DecidableEq, Repr

/-- Modelled from the spec: `onMouseDown` (handler declared in
`IWidgetContainer`, outside src/; bound only while enabled): if the point
is in bounds, start tracking a click and fire `MouseDown`. -/
def onMouseDown (c : WidgetCore) (p : ℚ × ℚ) : WidgetCore × List MouseEvt :=
  if c.isEnabled then
    if isInBounds c p then
      ({ c with isClicking := true }, [.down])
    else
      (c, [])
  else
    (c, [])

/-- Modelled from the spec: `onMouseMove` (handler declared in
`IWidgetContainer`, outside src/; bound only while enabled): entering
bounds fires `MouseEnter` and sets the hover flag, leaving fires
`MouseLeave` and clears it, and `MouseMove` fires while in bounds. -/
def onMouseMove (c : WidgetCore) (p : ℚ × ℚ) : WidgetCore × List MouseEvt :=
  if c.isEnabled then
    if isInBounds c p then
      if c.isMouseIn then
        (c, [.move])
      else
        ({ c with isMouseIn := true }, [.enter, .move])
    else
      if c.isMouseIn then
        ({ c with isMouseIn := false }, [.leave])
      else
        (c, [])
  else
    (c, [])

/-- Modelled from the spec: `onMouseUp` (handler declared in
`IWidgetContainer`, outside src/; bound only while enabled): fire `MouseUp`
if the point is in bounds, additionally fire `MouseClick` only if a click
was being tracked and the point is still in bounds, and clear the click
flag unconditionally. -/
def onMouseUp (c : WidgetCore) (p : ℚ × ℚ) : WidgetCore × List MouseEvt :=
  if c.isEnabled then
    (({ c with isClicking := false } : WidgetCore),
     (if isInBounds c p then [MouseEvt.up] else []) ++
     (if c.isClicking && isInBounds c p then [MouseEvt.click] else []))
  else
    (c, [])

/-- The press / drag-out / release interaction: `MouseDown` at `p`, then
`MouseMove` to `q`, then `MouseUp` at `r`, returning the final interaction
state and every event fired along the way. -/
def clickScenario (c : WidgetCore) (p q r : ℚ × ℚ) : WidgetCore × List MouseEvt :=
  let s1 := onMouseDown c p
  let s2 := onMouseMove s1.1 q
  let s3 := onMouseUp s2.1 r
  (s3.1, s1.2 ++ s2.2 ++ s3.2)

/-- An axis-aligned rectangle with origin and extent. -/
structure Rect where
  x : ℚ
  y : ℚ
  w : ℚ
  h : ℚ
deriving DecidableEq, Repr

/-- Membership in a rectangle, inclusive-exclusive on both axes. -/
def rectMem (r : Rect) (p : ℚ × ℚ) : Prop :=
  r.x ≤ p.1 ∧ p.1 < r.x + r.w ∧ r.y ≤ p.2 ∧ p.2 < r.y + r.h

/-- Modelled from the spec: one docking step of the layout resolver
(`updateDockingSize` and sibling placement are not in src/).  Given the
remaining free rectangle of the parent, a docking style and the processed
docking size, it yields the rectangle the child consumes and the remaining
free rectangle: edge docks slice off their edge, `Fill` consumes all
remaining space, `None` consumes nothing. -/
def dockStep (rem : Rect) : DockingStyle → ℚ → Rect × Rect
  | .LEFT, s => (⟨rem.x, rem.y, s, rem.h⟩, ⟨rem.x + s, rem.y, rem.w - s, rem.h⟩)
  | .RIGHT, s => (⟨rem.x + rem.w - s, rem.y, s, rem.h⟩, ⟨rem.x, rem.y, rem.w - s, rem.h⟩)
  | .TOP, s => (⟨rem.x, rem.y, rem.w, s⟩, ⟨rem.x, rem.y + s, rem.w, rem.h - s⟩)
  | .BOTTOM, s => (⟨rem.x, rem.y + rem.h - s, rem.w, s⟩, ⟨rem.x, rem.y, rem.w, rem.h - s⟩)
  | .FILL, _ => (rem, ⟨rem.x, rem.y, 0, 0⟩)
  | .NONE, _ => (⟨rem.x, rem.y, 0, 0⟩, rem)

/-- Modelled from the spec: docking resolution over an ordered sibling
list — each docked child consumes its slice of the parent's space in
insertion order. -/
def resolveDocking (parent : Rect) : List (DockingStyle × ℚ) → List Rect
  | [] => []
  | (st, s) :: rest =>
    let step := dockStep parent st s
    step.1 :: resolveDocking step.2 rest

/-- The processed dimensions of a widget lie in the processed min/max
range, min taking precedence when the range is inverted. -/
def dimsClamped (w : Widget) : Prop :=
  w.getMinSize.1 ≤ w.getDimensions.1 ∧
  (w.getMinSize.1 ≤ w.getMaxSize.1 → w.getDimensions.1 ≤ w.getMaxSize.1) ∧
  (w.getMaxSize.1 < w.getMinSize.1 → w.getDimensions.1 = w.getMinSize.1) ∧
  w.getMinSize.2 ≤ w.getDimensions.2 ∧
  (w.getMinSize.2 ≤ w.getMaxSize.2 → w.getDimensions.2 ≤ w.getMaxSize.2) ∧
  (w.getMaxSize.2 < w.getMinSize.2 → w.getDimensions.2 = w.getMinSize.2)

/-- The root viewport context: positions and dimensions resolve against a
zero origin and a zero extent (the spec's "0 if undefined" root rule). -/
def rootCtx : Ctx :=
  ⟨(0, 0), (0, 0)⟩

/-- A widget with a live position transition toward raw `(42, 7)` pixels
finishing at tick 10. -/
def wTrans : Widget :=
  .mk { defaultCore with
          targetRawPosition :=
            { defaultTransition2 with
                finalTime := 10
                rawTargetLength := ⟨42, 7, ⟨.pixel, .pixel⟩⟩ } } []

/-- A fully resolved widget with every transition already retired (its
processed max size matches its zero raw max size). -/
def wInert : Widget :=
  .mk { defaultCore with maxSize := (0, 0) } []

/-- A widget already owned by the (distinct) parent with id 5. -/
def childWithParent : Widget :=
  .mk { defaultCore with parent := some 5 } []

/-- A raw length of 3% by 4%. -/
def percentLen : Length2 :=
  ⟨3, 4, ⟨.percent, .percent⟩⟩

/-- An enabled 10×10 widget at the origin. -/
def hoverCore : WidgetCore :=
  { defaultCore with dimensions := (10, 10), isEnabled := true }

/-- The per-node recomputation always leaves a node agreeing with its own
raw state: the cascade's postcondition at a single node. -/
theorem nodeResolved_recomputeCore (ctx : Ctx) (c : WidgetCore) :
    nodeResolved ctx (recomputeCore ctx c) = true := by
  simp [nodeResolved, recomputeCore, resolvePosition]

/-- The scalar state after the cascade is the recomputation of the scalar
state before it. -/
theorem updateSpatialState_core (ctx : Ctx) (w : Widget) :
    (Widget.updateSpatialState ctx w).core = recomputeCore ctx w.core := by
  cases w
  simp [Widget.updateSpatialState, Widget.core]

/-- The scalar state after an update step is the recomputation of the
transition-stepped scalar state. -/
theorem update_core (ctx : Ctx) (dt : ℕ) (w : Widget) :
    (Widget.update ctx dt w).core = recomputeCore ctx (stepCore ctx dt w.core) := by
  cases w
  simp [Widget.update, Widget.core]

mutual

/-- After the cascade, every node of the subtree is resolved against the
geometry chain: the claim of §4.3 at the root context. -/
theorem subtreeResolved_updateSpatialState (ctx : Ctx) (w : Widget) :
    subtreeResolved ctx (Widget.updateSpatialState ctx w) = true :=
  match w with
  | .mk c cs => by
    simp only [Widget.updateSpatialState, subtreeResolved]
    rw [nodeResolved_recomputeCore]
    rw [subtreeResolvedList_updateSpatialStateList]
    rfl

/-- The child half of `subtreeResolved_updateSpatialState`. -/
theorem subtreeResolvedList_updateSpatialStateList (ctx : Ctx) (ws : List Widget) :
    subtreeResolvedList ctx (updateSpatialStateList ctx ws) = true :=
  match ws with
  | [] => rfl
  | w :: ws' => by
    simp only [updateSpatialStateList, subtreeResolvedList]
    rw [subtreeResolved_updateSpatialState]
    rw [subtreeResolvedList_updateSpatialStateList ctx ws']
    rfl

end

mutual

/-- After a frame update, every node of the subtree is resolved against the
geometry chain. -/
theorem subtreeResolved_update (ctx : Ctx) (dt : ℕ) (w : Widget) :
    subtreeResolved ctx (Widget.update ctx dt w) = true :=
  match w with
  | .mk c cs => by
    simp only [Widget.update, subtreeResolved]
    rw [nodeResolved_recomputeCore]
    rw [subtreeResolvedList_updateList]
    rfl

/-- The child half of `subtreeResolved_update`. -/
theorem subtreeResolvedList_updateList (ctx : Ctx) (dt : ℕ) (ws : List Widget) :
    subtreeResolvedList ctx (updateList ctx dt ws) = true :=
  match ws with
  | [] => rfl
  | w :: ws' => by
    simp only [updateList, subtreeResolvedList]
    rw [subtreeResolved_update]
    rw [subtreeResolvedList_updateList ctx dt ws']
    rfl

end

/-- The clamp of `applyMinMaxSizesToDimensions`, component-wise: the result
is at least the min, at most the max whenever min and max are consistent,
and exactly the min when min exceeds max. -/
theorem applyMinMaxSizes_bounds (mn mx d : ℚ × ℚ) :
    mn.1 ≤ (applyMinMaxSizesToDimensions mn mx d).1 ∧
    (mn.1 ≤ mx.1 → (applyMinMaxSizesToDimensions mn mx d).1 ≤ mx.1) ∧
    (mx.1 < mn.1 → (applyMinMaxSizesToDimensions mn mx d).1 = mn.1) ∧
    mn.2 ≤ (applyMinMaxSizesToDimensions mn mx d).2 ∧
    (mn.2 ≤ mx.2 → (applyMinMaxSizesToDimensions mn mx d).2 ≤ mx.2) ∧
    (mx.2 < mn.2 → (applyMinMaxSizesToDimensions mn mx d).2 = mn.2) := by
  refine ⟨le_max_left _ _, fun h => ?_, fun h => ?_, le_max_left _ _, fun h => ?_, fun h => ?_⟩
  · exact max_le h (min_le_right _ _)
  · exact max_eq_left ((min_le_right d.1 mx.1).trans h.le)
  · exact max_le h (min_le_right _ _)
  · exact max_eq_left ((min_le_right d.2 mx.2).trans h.le)

/-- A node whose cached geometry agrees with its raw state has clamped
dimensions. -/
theorem dimsClamped_of_nodeResolved {ctx : Ctx} {w : Widget}
    (h : nodeResolved ctx w.core = true) : dimsClamped w := by
  have hd : w.core.dimensions =
      applyMinMaxSizesToDimensions w.core.minSize w.core.maxSize
        (processRawValues ctx.dims w.core.rawDimensions) := by
    simp only [nodeResolved, Bool.and_eq_true, decide_eq_true_eq] at h
    exact h.1.1
  have hb := applyMinMaxSizes_bounds w.core.minSize w.core.maxSize
    (processRawValues ctx.dims w.core.rawDimensions)
  simp only [dimsClamped, Widget.getMinSize, Widget.getMaxSize, Widget.getDimensions, hd]
  exact hb

/-- The root node of a resolved subtree is itself resolved. -/
theorem nodeResolved_of_subtreeResolved {ctx : Ctx} {w : Widget}
    (h : subtreeResolved ctx w = true) : nodeResolved ctx w.core = true := by
  cases w with
  | mk c cs =>
    simp only [subtreeResolved, Bool.and_eq_true] at h
    exact h.1

/-- C1: after any geometry mutation — any raw position/dimension/min/max
setter, `setDimensions`, or an update step — the processed dimensions
returned by `getDimensions()` lie within `[minSize, maxSize]`
component-wise, and when `minSize > maxSize` on an axis the result on that
axis equals `minSize` (min takes precedence over max). -/
theorem geometry_mutations_clamp_dimensions
    (ctx : Ctx) (w : Widget) (l : Length2) (d : ℚ × ℚ) (dt : ℕ) :
    dimsClamped (w.setRawPosition ctx l) ∧
    dimsClamped (w.setRawDimensions ctx l) ∧
    dimsClamped (w.setRawMinSize ctx l) ∧
    dimsClamped (w.setRawMaxSize ctx l) ∧
    dimsClamped (w.setDimensions ctx d) ∧
    dimsClamped (w.update ctx dt) := by
  refine ⟨?_, ?_, ?_, ?_, ?_, ?_⟩ <;>
    exact dimsClamped_of_nodeResolved
      (nodeResolved_of_subtreeResolved
        (by first
              | exact subtreeResolved_updateSpatialState ctx _
              | exact subtreeResolved_update ctx dt _))

/-- C5: each raw setter stores its raw value, synchronously recomputes the
corresponding processed value, and triggers the cascade that re-resolves
the whole descendant subtree depth-first. -/
theorem raw_setters_cascade
    (ctx : Ctx) (w : Widget) (l : Length2) (o : DockingOptions) (st : DockingStyle) :
    subtreeResolved ctx (w.setRawPosition ctx l) = true ∧
    subtreeResolved ctx (w.setRawDimensions ctx l) = true ∧
    subtreeResolved ctx (w.setRawMinSize ctx l) = true ∧
    subtreeResolved ctx (w.setRawMaxSize ctx l) = true ∧
    subtreeResolved ctx (w.setDockingOptions ctx o) = true ∧
    subtreeResolved ctx (w.setDockingStyle ctx st) = true ∧
    (w.setRawPosition ctx l).core.rawPosition = l ∧
    (w.setRawDimensions ctx l).core.rawDimensions = l ∧
    (w.setRawMinSize ctx l).core.minSize = processRawValues ctx.dims l ∧
    (w.setRawMaxSize ctx l).core.maxSize = processRawValues ctx.dims l ∧
    (w.setDockingOptions ctx o).core.dockingOptions = o ∧
    (w.setDockingOptions ctx o).core.processedDockingSize = processDockingSize ctx o ∧
    (w.setDockingStyle ctx st).core.dockingOptions.style = st := by
  refine ⟨subtreeResolved_updateSpatialState ctx _,
          subtreeResolved_updateSpatialState ctx _,
          subtreeResolved_updateSpatialState ctx _,
          subtreeResolved_updateSpatialState ctx _,
          subtreeResolved_updateSpatialState ctx _,
          subtreeResolved_updateSpatialState ctx _, ?_, ?_, ?_, ?_, ?_, ?_, ?_⟩ <;>
  · simp only [Widget.setRawPosition, Widget.setRawDimensions, Widget.setRawMinSize,
      Widget.setRawMaxSize, Widget.setDockingOptions, Widget.setDockingStyle]
    rw [updateSpatialState_core]
    rfl

/-- C9: `setAnchor` mutates only the anchor field — raw and processed
position, dimensions, min/max sizes, docking state and the reload flag are
untouched and no recomputation cascade runs — while `setPositionType`, by
contrast, re-resolves the whole subtree. -/
theorem setAnchor_mutates_only_anchor (w : Widget) (a : AnchorStyle) (ctx : Ctx) :
    (w.setAnchor a).core.anchor = a ∧
    (w.setAnchor a).core.rawPosition = w.core.rawPosition ∧
    (w.setAnchor a).core.position = w.core.position ∧
    (w.setAnchor a).core.rawDimensions = w.core.rawDimensions ∧
    (w.setAnchor a).core.dimensions = w.core.dimensions ∧
    (w.setAnchor a).core.rawMinSize = w.core.rawMinSize ∧
    (w.setAnchor a).core.minSize = w.core.minSize ∧
    (w.setAnchor a).core.rawMaxSize = w.core.rawMaxSize ∧
    (w.setAnchor a).core.maxSize = w.core.maxSize ∧
    (w.setAnchor a).core.dockingOptions = w.core.dockingOptions ∧
    (w.setAnchor a).core.processedDockingSize = w.core.processedDockingSize ∧
    (w.setAnchor a).core.relativePosition = w.core.relativePosition ∧
    (w.setAnchor a).core.positionType = w.core.positionType ∧
    (w.setAnchor a).core.needsDrawableReload = w.core.needsDrawableReload ∧
    (w.setAnchor a).children = w.children ∧
    (∀ t, subtreeResolved ctx (w.setPositionType ctx t) = true) := by
  cases w with
  | mk c cs =>
    refine ⟨rfl, rfl, rfl, rfl, rfl, rfl, rfl, rfl, rfl, rfl, rfl, rfl, rfl, rfl, rfl, ?_⟩
    intro t
    exact subtreeResolved_updateSpatialState ctx _

/-- C10: the in-class member initializers of a default-constructed widget:
`TOP_LEFT` alignment, `STATIC` positioning, zero processed minimum size,
`FLT_MAX` processed maximum size, zero relative position, a clear
drawable-reload flag, and null font and renderer pointers. -/
theorem default_widget_member_values :
    defaultWidget.core.align = WidgetAlign.TOP_LEFT ∧
    defaultWidget.core.positionType = PositionType.STATIC ∧
    defaultWidget.core.minSize = (0, 0) ∧
    defaultWidget.core.maxSize = (fltMax, fltMax) ∧
    defaultWidget.core.relativePosition = (0, 0) ∧
    defaultWidget.core.needsDrawableReload = false ∧
    defaultWidget.core.font = none ∧
    defaultWidget.core.renderer = none :=
  ⟨rfl, rfl, rfl, rfl, rfl, rfl, rfl, rfl⟩

/-- C8: `dispose()` is idempotent: the first call detaches from the
parent, clears the renderer link (removing the drawables) and the font
reference, and leaves the child collection empty; a second call changes
nothing, and disposing a never-initialized (default) widget is already a
no-op.  `Widget.dispose` is a total function, so no error can be raised. -/
theorem dispose_idempotent (w : Widget) :
    Widget.dispose (Widget.dispose w) = Widget.dispose w ∧
    (Widget.dispose w).children = [] ∧
    (Widget.dispose w).core.parent = none ∧
    (Widget.dispose w).core.renderer = none ∧
    (Widget.dispose w).core.font = none ∧
    Widget.dispose defaultWidget = defaultWidget := by
  cases w with
  | mk c cs => exact ⟨rfl, rfl, rfl, rfl, rfl, rfl⟩

/-- C2: an update step that makes a live position transition reach its
final time sets the raw position to the transition's raw target exactly
and caps `currentTime` at `finalTime`; and once every transition is
retired, a further update step on a resolved widget leaves both the raw
position and the processed position unchanged. -/
theorem transition_retirement (ctx : Ctx) (dt : ℕ) (w : Widget) :
    (w.core.targetRawPosition.currentTime < w.core.targetRawPosition.finalTime →
     w.core.targetRawPosition.finalTime ≤ w.core.targetRawPosition.currentTime + dt →
     (w.update ctx dt).core.rawPosition = w.core.targetRawPosition.rawTargetLength ∧
     (w.update ctx dt).core.targetRawPosition.currentTime =
       w.core.targetRawPosition.finalTime) ∧
    (w.core.targetRawPosition.finalTime ≤ w.core.targetRawPosition.currentTime →
     w.core.targetRawDimensions.finalTime ≤ w.core.targetRawDimensions.currentTime →
     w.core.targetRawMinSize.finalTime ≤ w.core.targetRawMinSize.currentTime →
     w.core.targetRawMaxSize.finalTime ≤ w.core.targetRawMaxSize.currentTime →
     fullyResolved ctx w.core = true →
     (w.update ctx dt).core.rawPosition = w.core.rawPosition ∧
     (w.update ctx dt).core.position = w.core.position) := by
  constructor
  · intro h1 h2
    have hstep : stepTransition2 w.core.rawPosition w.core.targetRawPosition dt =
        (w.core.targetRawPosition.rawTargetLength,
         { w.core.targetRawPosition with
             currentTime := w.core.targetRawPosition.finalTime }) := by
      simp only [stepTransition2]
      rw [if_neg (not_le.mpr h1)]
      simp [min_eq_right h2]
    constructor
    · rw [update_core]
      show (stepTransition2 w.core.rawPosition w.core.targetRawPosition dt).1 = _
      rw [hstep]
    · rw [update_core]
      show (stepTransition2 w.core.rawPosition w.core.targetRawPosition dt).2.currentTime = _
      rw [hstep]
  · intro g1 g2 g3 g4 hres
    simp only [fullyResolved, nodeResolved, Bool.and_eq_true, decide_eq_true_eq] at hres
    have hmn := hres.1.1
    have hmx := hres.1.2
    have hdim := hres.2.1.1
    have hpos := hres.2.1.2
    have s1 : stepTransition2 w.core.rawPosition w.core.targetRawPosition dt =
        (w.core.rawPosition, w.core.targetRawPosition) := by
      simp only [stepTransition2]
      rw [if_pos g1]
    have s2 : stepTransition2 w.core.rawDimensions w.core.targetRawDimensions dt =
        (w.core.rawDimensions, w.core.targetRawDimensions) := by
      simp only [stepTransition2]
      rw [if_pos g2]
    have s3 : stepTransition2 w.core.rawMinSize w.core.targetRawMinSize dt =
        (w.core.rawMinSize, w.core.targetRawMinSize) := by
      simp only [stepTransition2]
      rw [if_pos g3]
    have s4 : stepTransition2 w.core.rawMaxSize w.core.targetRawMaxSize dt =
        (w.core.rawMaxSize, w.core.targetRawMaxSize) := by
      simp only [stepTransition2]
      rw [if_pos g4]
    have hsc : stepCore ctx dt w.core = w.core := by
      simp only [stepCore, s1, s2, s3, s4]
      rw [← hmn, ← hmx]
    constructor
    · rw [update_core, hsc]
      rfl
    · rw [update_core, hsc]
      show resolvePosition ctx w.core
        (applyMinMaxSizesToDimensions w.core.minSize w.core.maxSize
          (processRawValues ctx.dims w.core.rawDimensions)) = w.core.position
      rw [← hdim]
      exact hpos.symm

/-- Witness for `transition_retirement` at concrete widgets: one whose
transition completes during the step, one fully retired and resolved. -/
theorem transition_retirement_witness :
    ((Widget.update rootCtx 10 wTrans).core.rawPosition =
       wTrans.core.targetRawPosition.rawTargetLength ∧
     (Widget.update rootCtx 10 wTrans).core.targetRawPosition.currentTime =
       wTrans.core.targetRawPosition.finalTime) ∧
    ((Widget.update rootCtx 5 wInert).core.rawPosition = wInert.core.rawPosition ∧
     (Widget.update rootCtx 5 wInert).core.position = wInert.core.position) :=
  ⟨(transition_retirement rootCtx 10 wTrans).1 (by decide) (by decide),
   (transition_retirement rootCtx 5 wInert).2 (by decide) (by decide) (by decide)
     (by decide)
     (by simp only [fullyResolved, nodeResolved, wInert, defaultCore, rootCtx,
           defaultTransition2, processRawValues, processRawValueAxis,
           applyMinMaxSizesToDimensions, resolvePosition, processDockingSize,
           getWidgetAlignOffset, Widget.core, min_self, max_self, add_zero, zero_add]
         decide)⟩

/-- C3: `addWidget` returns `false` and leaves the receiver — child
collection included — unchanged when the argument is null or already has a
different parent; the boolean is the sole failure signal (`Widget.addWidget`
is a total function, so nothing can be raised). -/
theorem addWidget_rejects_invalid (w ch : Widget) (pid : ℕ) :
    (w.addWidget none).1 = false ∧
    (w.addWidget none).2 = w ∧
    (ch.core.parent = some pid → pid ≠ w.core.wid →
      (w.addWidget (some ch)).1 = false ∧ (w.addWidget (some ch)).2 = w) := by
  refine ⟨rfl, rfl, ?_⟩
  intro hp hne
  simp only [Widget.addWidget, hp]
  rw [if_neg hne]
  exact ⟨rfl, rfl⟩

/-- Witness for `addWidget_rejects_invalid`: a null argument and an
already-parented argument both bounce off a default widget. -/
theorem addWidget_rejects_invalid_witness :
    (defaultWidget.addWidget none).1 = false ∧
    (defaultWidget.addWidget none).2 = defaultWidget ∧
    (defaultWidget.addWidget (some childWithParent)).1 = false ∧
    (defaultWidget.addWidget (some childWithParent)).2 = defaultWidget :=
  ⟨(addWidget_rejects_invalid defaultWidget childWithParent 5).1,
   (addWidget_rejects_invalid defaultWidget childWithParent 5).2.1,
   ((addWidget_rejects_invalid defaultWidget childWithParent 5).2.2
      (by decide) (by decide)).1,
   ((addWidget_rejects_invalid defaultWidget childWithParent 5).2.2
      (by decide) (by decide)).2⟩

/-- C4: `Pixel`-unit raw scalars resolve to themselves, `Percent`-unit raw
scalars resolve to the parent extent times `value/100`, and re-resolution
(the cascade) never alters a widget's raw values — only the processed
values change with the parent's dimensions. -/
theorem processRawValue_units (pd pd2 : ℚ × ℚ) (v v2 : ℚ) (l : Length2)
    (ctx : Ctx) (w : Widget) :
    processRawValueAxis pd.1 v UnitType.pixel = v ∧
    processRawValueAxis pd.1 v UnitType.percent = pd.1 * v / 100 ∧
    processRawValue pd (v, v2) UnitType.pixel = (v, v2) ∧
    (l.units.x = UnitType.percent → l.units.y = UnitType.percent →
      processRawValues pd2 l = (pd2.1 * l.x / 100, pd2.2 * l.y / 100)) ∧
    (Widget.updateSpatialState ctx w).core.rawDimensions = w.core.rawDimensions ∧
    (Widget.updateSpatialState ctx w).core.rawPosition = w.core.rawPosition := by
  refine ⟨rfl, rfl, rfl, ?_, ?_, ?_⟩
  · intro hx hy
    simp [processRawValues, hx, hy, processRawValueAxis]
  · rw [updateSpatialState_core]
    rfl
  · rw [updateSpatialState_core]
    rfl

/-- Witness for `processRawValue_units` against a 200×100 parent. -/
theorem processRawValue_units_witness :
    processRawValues (200, 100) percentLen =
      ((200 : ℚ) * 3 / 100, (100 : ℚ) * 4 / 100) :=
  (processRawValue_units (0, 0) (200, 100) 0 0 percentLen rootCtx
    defaultWidget).2.2.2.1 (by decide) (by decide)

/-- C6: a parent with a `Left`-docked child of processed docking size 50
followed by a `Fill`-docked child splits into two disjoint rectangles that
together span the parent exactly, the `Fill` child starting at x = 50. -/
theorem docking_left_fill (pw ph : ℚ) (hW : 50 ≤ pw) :
    resolveDocking ⟨0, 0, pw, ph⟩ [(DockingStyle.LEFT, 50), (DockingStyle.FILL, 0)] =
      [⟨0, 0, 50, ph⟩, ⟨50, 0, pw - 50, ph⟩] ∧
    (∀ p : ℚ × ℚ, ¬(rectMem ⟨0, 0, 50, ph⟩ p ∧ rectMem ⟨50, 0, pw - 50, ph⟩ p)) ∧
    (∀ p : ℚ × ℚ,
      rectMem ⟨0, 0, pw, ph⟩ p ↔
        rectMem ⟨0, 0, 50, ph⟩ p ∨ rectMem ⟨50, 0, pw - 50, ph⟩ p) ∧
    (Rect.mk 50 0 (pw - 50) ph).x = 50 := by
  refine ⟨?_, ?_, ?_, rfl⟩
  · simp [resolveDocking, dockStep]
  · rintro p ⟨⟨_, h2, _, _⟩, ⟨h5, _, _, _⟩⟩
    simp only [rectMem] at h2 h5
    · linarith
  · intro p
    simp only [rectMem]
    constructor
    · rintro ⟨h1, h2, h3, h4⟩
      by_cases hc : p.1 < 50
      · exact Or.inl ⟨h1, by linarith, h3, by linarith⟩
      · exact Or.inr ⟨by linarith, by linarith, h3, by linarith⟩
    · rintro (⟨h1, h2, h3, h4⟩ | ⟨h1, h2, h3, h4⟩)
      · exact ⟨h1, by linarith, h3, by linarith⟩
      · exact ⟨by linarith, by linarith, h3, by linarith⟩

/-- Witness for `docking_left_fill` with a 200×100 parent. -/
theorem docking_left_fill_witness :
    resolveDocking ⟨0, 0, 200, 100⟩ [(DockingStyle.LEFT, 50), (DockingStyle.FILL, 0)] =
      [⟨0, 0, 50, 100⟩, ⟨50, 0, (200 : ℚ) - 50, 100⟩] :=
  (docking_left_fill 200 100 (by decide)).1

/-- C7: for an enabled widget, a press inside the bounds followed by a move
out of bounds and a release out of bounds fires neither `MouseClick` nor
`MouseUp`; in general, `onMouseUp` fires `MouseClick` exactly when a click
was being tracked and the release point is in bounds, and it clears the
click-tracking flag unconditionally. -/
theorem mouse_click_semantics (c : WidgetCore) (p q r : ℚ × ℚ)
    (hen : c.isEnabled = true) (hp : isInBounds c p = true)
    (hq : isInBounds c q = false) (hr : isInBounds c r = false) :
    MouseEvt.click ∉ (clickScenario c p q r).2 ∧
    MouseEvt.up ∉ (clickScenario c p q r).2 ∧
    (∀ c' : WidgetCore, ∀ s : ℚ × ℚ,
      MouseEvt.click ∈ (onMouseUp c' s).2 ↔
        (c'.isEnabled = true ∧ c'.isClicking = true ∧ isInBounds c' s = true)) ∧
    (∀ c' : WidgetCore, ∀ s : ℚ × ℚ,
      c'.isEnabled = true → (onMouseUp c' s).1.isClicking = false) := by
  simp only [isInBounds] at hp hq hr
  refine ⟨?_, ?_, ?_, ?_⟩
  · cases hmi : c.isMouseIn <;>
      simp [clickScenario, onMouseDown, onMouseMove, onMouseUp, isInBounds,
        hen, hp, hq, hr, hmi]
  · cases hmi : c.isMouseIn <;>
      simp [clickScenario, onMouseDown, onMouseMove, onMouseUp, isInBounds,
        hen, hp, hq, hr, hmi]
  · intro c' s
    cases he : c'.isEnabled <;> cases hcl : c'.isClicking <;>
      cases hib : isInBounds c' s <;> simp [onMouseUp, he, hcl, hib]
  · intro c' s he
    simp [onMouseUp, he]

/-- Witness for `mouse_click_semantics`: press at (5,5) inside the widget,
drag to (20,20) outside it, release there. -/
theorem mouse_click_semantics_witness :
    MouseEvt.click ∉ (clickScenario hoverCore (5, 5) (20, 20) (20, 20)).2 ∧
    MouseEvt.up ∉ (clickScenario hoverCore (5, 5) (20, 20) (20, 20)).2 :=
  ⟨(mouse_click_semantics hoverCore (5, 5) (20, 20) (20, 20) (by decide)
      (by simp only [isInBounds, pointInRect, hoverCore, defaultCore, zero_add]
          decide)
      (by simp only [isInBounds, pointInRect, hoverCore, defaultCore, zero_add]
          decide)
      (by simp only [isInBounds, pointInRect, hoverCore, defaultCore, zero_add]
          decide)).1,
   (mouse_click_semantics hoverCore (5, 5) (20, 20) (20, 20) (by decide)
      (by simp only [isInBounds, pointInRect, hoverCore, defaultCore, zero_add]
          decide)
      (by simp only [isInBounds, pointInRect, hoverCore, defaultCore, zero_add]
          decide)
      (by simp only [isInBounds, pointInRect, hoverCore, defaultCore, zero_add]
          decide)).2.1⟩

/-- Witness for `geometry_mutations_clamp_dimensions`: the clamp holds on a
concrete update step of the default widget. -/
theorem geometry_mutations_clamp_dimensions_witness :
    dimsClamped (defaultWidget.update rootCtx 1) :=
  (geometry_mutations_clamp_dimensions rootCtx defaultWidget
    ⟨0, 0, ⟨.pixel, .pixel⟩⟩ (0, 0) 1).2.2.2.2.2

end Vorb



